import Mathlib

/-!
Shallow embedding of `lcls_orbit/widgets.py` (class `OrbitDisplay`).

Modelling conventions:
- A process-variable sample is `Option ℚ`: `none` is the missing marker
  (Python `None`; after `np.array(..., dtype=np.float64)` it becomes NaN,
  which we also render as `none`).
- Python instance attributes that may never have been assigned (the class
  assigns `self._color_monitor`, `self._extents`, `self._color_map` only
  when `color_var is not None`) are modelled with `Attr`: reading an
  `unset` attribute raises `AttributeError`.
- Exceptions are explicit. `OrbitDisplay.update` returns the state
  together with `Option Err`: on an error the returned state carries
  exactly the mutations Python performed before the exception was raised,
  so atomicity statements are meaningful.
- Dictionaries keyed by the device rows (`vals["X"]`,
  `self._reference_measurements["X"]`) are modelled as lists aligned with
  the device-table row order, which is the dictionaries' iteration order.
  A key mismatch between the polled values and the accumulator dict (which
  in Python raises `KeyError` part way through the append loop, after the
  countdown decrement) is modelled as a `keyError` after the decrement.
-/

/-- Python attribute that may be unset: reading it raises `AttributeError`. -/
inductive Attr (α : Type) where
  | unset : Attr α
  | set (val : α) : Attr α
deriving DecidableEq, Repr

/-- Exceptions that the modelled code paths can raise. -/
inductive Err where
  | typeError
  | indexError
  | attributeError
  | valueError
  | keyError
  | nameError
  | pollError
deriving DecidableEq, Repr

instance {ε α : Type} [DecidableEq ε] [DecidableEq α] : DecidableEq (Except ε α) :=
  fun x y =>
    match x, y with
    | .ok a, .ok b =>
      match decEq a b with
      | isTrue h => isTrue (h ▸ rfl)
      | isFalse h => isFalse (fun hc => h (Except.ok.inj hc))
    | .error a, .error b =>
      match decEq a b with
      | isTrue h => isTrue (h ▸ rfl)
      | isFalse h => isFalse (fun hc => h (Except.error.inj hc))
    | .ok _, .error _ => isFalse (fun hc => Except.noConfusion hc)
    | .error _, .ok _ => isFalse (fun hc => Except.noConfusion hc)

/-- Result of `self._monitor.poll()`: per-device values for both axes and
the device names, all in device-table row order (the data-source invariant
of the spec: exactly one entry per row, in table order). -/
structure PollVals where
  x : List (Option ℚ)
  y : List (Option ℚ)
  devices : List String
deriving DecidableEq, Repr

/-- State of an `OrbitDisplay` instance: the fields of `self` that the
sampler, the colour binner and the published data sources consist of.
`xSource`/`ySource` are the raw bar-chart `ColumnDataSource`s
(x, y, device, color); `xRefSource`/`yRefSource` are the reference-curve
sources (x, y). -/
structure OrbitState where
  z : List ℚ
  barWidth : ℚ
  colorMonitor : Attr (Option Unit)
  extents : Attr (List ℚ)
  colorMap : Attr (List String)
  collecting : Bool
  refMeasX : List (List (Option ℚ))
  refMeasY : List (List (Option ℚ))
  refN : ℤ
  refCount : ℤ
  xRefSource : List ℚ × List ℚ
  yRefSource : List ℚ × List ℚ
  refLineColor : Option String
  xSource : List ℚ × List (Option ℚ) × List String × List String
  ySource : List ℚ × List (Option ℚ) × List String × List String
deriving DecidableEq, Repr

/-- Python `max(l)` for a nonempty list (the `[]` default is never used:
every call site guards against the empty list, where Python raises). -/
def listMax : List ℚ → ℚ
  | [] => 0
  | a :: rest => rest.foldl max a

/-- Python `min(l)` for a nonempty list. -/
def listMin : List ℚ → ℚ
  | [] => 0
  | a :: rest => rest.foldl min a

/-- Absolute value as `np.abs` computes it on a rational. -/
def absQ (q : ℚ) : ℚ := if q < 0 then -q else q

/-- Index of the first occurrence of the minimal `|e - v|` over `ext`:
the value of `(np.abs(self._extents - color_val)).argmin()` (line 197 of
`widgets.py`); `np.argmin` returns the first occurrence of the minimum. -/
def binIdx : List ℚ → ℚ → ℕ
  | [], _ => 0
  | [_], _ => 0
  | e :: rest, v =>
    let j := binIdx rest v
    if absQ (e - v) ≤ absQ (rest.getD j 0 - v) then 0 else j + 1

/-- Mean over present samples: `np.mean([x for x in samples if x != None])`
(lines 220/224). `np.mean` of an empty list is NaN, rendered as `none`. -/
def presentMean (samples : List (Option ℚ)) : Option ℚ :=
  let present := samples.filterMap id
  if present = [] then none else some (present.sum / (present.length : ℚ))

/-- Positions of the devices whose mean survived the NaN filter:
`[self._z[i] for i, x in enumerate(x_mean) if not np.isnan(x)]`
(lines 221/225), walking `z` and the per-device means in step. -/
def lineZ : List ℚ → List (Option ℚ) → List ℚ
  | z :: zs, some _ :: ms => z :: lineZ zs ms
  | _ :: zs, none :: ms => lineZ zs ms
  | _, _ => []

/-- The reference curve published on capture completion (lines 220–226):
positions of the devices with a non-NaN mean, paired with the filtered
means `[x for x in x_mean if not np.isnan(x)]`, in row order. -/
def refCurve (z : List ℚ) (meas : List (List (Option ℚ))) : List ℚ × List ℚ :=
  let means := meas.map presentMean
  (lineZ z means, means.filterMap id)

/-- Default colour `"#695f5e"` used when no colour monitor is configured
(line 203). -/
def defaultColor : String := "#695f5e"

/-- Append this cycle's per-device values to the accumulators
(lines 209–213): `self._reference_measurements[axis][device].append(...)`. -/
def appendSamples (meas : List (List (Option ℚ))) (vals : List (Option ℚ)) :
    List (List (Option ℚ)) :=
  meas.zipWith (fun m v => m ++ [v]) vals

/-- Python `range(a, b, step)` for a positive step, as used on line 275. -/
def pyRange (a b : ℤ) (step : ℕ) : List ℤ :=
  (List.range ((b - a + step - 1) / step).toNat).map (fun i => a + step * i)

namespace OrbitDisplay

/-- Colour-input validation of `__init__` (lines 48–59): when `color_var`
is given, a missing `extents` or `color_map` raises `ValueError`;
when it is `None`, the three attributes are never assigned. -/
def initColorAttrs : Option Unit → Option (List String) → Option (List ℚ) →
    Except Err (Attr (Option Unit) × Attr (List ℚ) × Attr (List String))
  | none, _, _ => .ok (.unset, .unset, .unset)
  | some _, _, none => .error .valueError
  | some _, none, some _ => .error .valueError
  | some _, some cm, some ext => .ok (.set (some ()), .set ext, .set cm)

/-- Bar-width computation of `__init__` (lines 61–64): `if not bar_width`
(so `None` and `0` both trigger the computed branch, where `max`/`min` of
an empty `z` raise `ValueError`). -/
def computeBarWidth (z : List ℚ) (bw : Option ℚ) : Except Err ℚ :=
  if bw.getD 0 = 0 then
    match z with
    | [] => .error .valueError
    | _ => .ok ((listMax z - listMin z) / ((z.length : ℚ) + 1))
  else .ok (bw.getD 0)

/-- Unconditional indexing of the `extents` argument on lines 157–158
(`low=extents[0], high=extents[1]`): `None` raises `TypeError`, a list
shorter than 2 raises `IndexError`. -/
def checkExtentsIndex : Option (List ℚ) → Except Err Unit
  | none => .error .typeError
  | some [] => .error .indexError
  | some [_] => .error .indexError
  | some (_ :: _ :: _) => .ok ()

/-- Constructor `OrbitDisplay.__init__`, restricted to the modelled state.
`tableZ` is the `z` column of the device table in row order, `tableRows`
its row names. Note that `referenceN` is stored without any validation. -/
def init (tableZ : List ℚ) (tableRows : List String) (colorVar : Option Unit)
    (colorMap : Option (List String)) (extents : Option (List ℚ))
    (barWidth : Option ℚ) (referenceN : ℤ) : Except Err OrbitState :=
  match initColorAttrs colorVar colorMap extents with
  | .error e => .error e
  | .ok (cmon, extA, cmapA) =>
    match computeBarWidth tableZ barWidth with
    | .error e => .error e
    | .ok bw =>
      match tableZ with
      | [] => .error .valueError
      | _ =>
        match checkExtentsIndex extents with
        | .error e => .error e
        | .ok _ =>
          .ok { z := tableZ
                barWidth := bw
                colorMonitor := cmon
                extents := extA
                colorMap := cmapA
                collecting := false
                refMeasX := List.replicate tableRows.length []
                refMeasY := List.replicate tableRows.length []
                refN := referenceN
                refCount := referenceN
                xRefSource := ([], [])
                yRefSource := ([], [])
                refLineColor := none
                xSource := ([], [], [], [])
                ySource := ([], [], [], []) }

/-- Lines 195–203 of `update`: compute the per-device colour list and the
single cycle colour. Reading the never-assigned `_color_monitor`,
`_extents` or `_color_map` raises `AttributeError`; a missing colour value
makes `self._extents - color_val` raise `TypeError`; `argmin` of an empty
array raises `ValueError`; an extents array longer than the colour map can
index past its end (`IndexError`). In the default branch the local
`color` stays unbound (second component `none`). -/
def computeColors (s : OrbitState) (vals : PollVals)
    (colorPoll : Except Err (Option ℚ)) :
    Except Err (List String × Option String) :=
  match s.colorMonitor with
  | .unset => .error .attributeError
  | .set none => .ok (vals.x.map (fun _ => defaultColor), none)
  | .set (some _) =>
    match colorPoll with
    | .error e => .error e
    | .ok none => .error .typeError
    | .ok (some cv) =>
      match s.extents with
      | .unset => .error .attributeError
      | .set ext =>
        if ext = [] then .error .valueError
        else
          match s.colorMap with
          | .unset => .error .attributeError
          | .set cmap =>
            match cmap.get? (binIdx ext cv) with
            | none => .error .indexError
            | some c => .ok (vals.x.map (fun _ => c), some c)

/-- Lines 206–244 of `update`: the reference-sampling block. While
collecting, the countdown is decremented once per call, this cycle's
values are appended, and when the countdown hits zero the means are
computed, the accumulators cleared, the countdown reset and the curve
published with the cycle colour. On an error the returned state carries
the mutations already performed (Python does not roll back). -/
def referenceStep (s : OrbitState) (vals : PollVals) (colorOpt : Option String) :
    OrbitState × Option Err :=
  if s.collecting then
    let s1 : OrbitState := { s with refCount := s.refCount - 1 }
    if vals.x.length = s1.refMeasX.length ∧ vals.y.length = s1.refMeasY.length then
      let s2 : OrbitState :=
        { s1 with refMeasX := appendSamples s1.refMeasX vals.x,
                  refMeasY := appendSamples s1.refMeasY vals.y }
      if s2.refCount = (0 : ℤ) then
        let xcurve := refCurve s2.z s2.refMeasX
        let ycurve := refCurve s2.z s2.refMeasY
        let s3 : OrbitState :=
          { s2 with collecting := false,
                    refMeasX := List.replicate s2.refMeasX.length [],
                    refMeasY := List.replicate s2.refMeasY.length [],
                    refCount := s2.refN }
        match colorOpt with
        | none => (s3, some .nameError)
        | some c =>
          ({ s3 with refLineColor := some c,
                     xRefSource := xcurve,
                     yRefSource := ycurve }, none)
      else (s2, none)
    else (s1, some .keyError)
  else (s, none)

/-- Method `update` (lines 186–267). The two poll results are passed in as
parameters standing for the external data source; an `.error` input means
that fetch raised. The final emptiness test models `min(x)`/`min(y)` of an
empty array raising `ValueError` (lines 252/260) before the raw sources
are republished (lines 266–267). -/
def update (s : OrbitState) (monPoll : Except Err PollVals)
    (colorPoll : Except Err (Option ℚ)) : OrbitState × Option Err :=
  match monPoll with
  | .error e => (s, some e)
  | .ok vals =>
    match computeColors s vals colorPoll with
    | .error e => (s, some e)
    | .ok (colors, colorOpt) =>
      match referenceStep s vals colorOpt with
      | (s1, some e) => (s1, some e)
      | (s1, none) =>
        if vals.x = [] ∨ vals.y = [] then (s1, some .valueError)
        else
          ({ s1 with xSource := (s1.z, vals.x, vals.devices, colors)
                     ySource := (s1.z, vals.y, vals.devices, colors) }, none)

/-- Method `update_table` (lines 168–183): rebuild `z`, clear both
reference-curve sources and re-initialise the accumulators from the new
table's rows. Nothing else is touched. -/
def updateTable (s : OrbitState) (newZ : List ℚ) (newRows : List String) :
    OrbitState :=
  { s with z := newZ
           xRefSource := ([], [])
           yRefSource := ([], [])
           refMeasX := List.replicate newRows.length []
           refMeasY := List.replicate newRows.length [] }

/-- Method `update_colormap` (lines 269–276): assigns the colour map,
then rebuilds `_extents` as
`np.array(range(extents[0], extents[1], len(self._color_map)))` and
installs a new colour monitor. Indexing a too-short `extents` raises
`IndexError` (after the colour map was already assigned); an empty colour
map makes `range` raise `ValueError` (zero step). -/
def updateColormap (s : OrbitState) (cmap : List String) (extents : List ℤ) :
    OrbitState × Option Err :=
  let s1 := { s with colorMap := Attr.set cmap }
  match extents.get? 0, extents.get? 1 with
  | some a, some b =>
    if cmap.length = 0 then (s1, some .valueError)
    else
      ({ s1 with extents := Attr.set ((pyRange a b cmap.length).map (fun i => (i : ℚ)))
                 colorMonitor := Attr.set (some ()) }, none)
  | _, _ => (s1, some .indexError)

/-- Button callback `_collect_reference` (lines 278–279). -/
def collectReference (s : OrbitState) : OrbitState :=
  { s with collecting := true }

/-- Button callback `_reset_reference` (lines 281–283): clears the two
reference-curve sources and nothing else. -/
def resetReference (s : OrbitState) : OrbitState :=
  { s with xRefSource := ([], [])
           yRefSource := ([], []) }

end OrbitDisplay

/-! ## Concrete states used by the scenario theorems -/

/-- A reachable state with a configured colour monitor: two devices at
`z = [0, 1]`, extents `[0, 1]` with colour map `["red", "green"]`,
capture target 5, not collecting. -/
def baseState : OrbitState :=
  { z := [0, 1]
    barWidth := 1
    colorMonitor := .set (some ())
    extents := .set [0, 1]
    colorMap := .set ["red", "green"]
    collecting := false
    refMeasX := [[], []]
    refMeasY := [[], []]
    refN := 5
    refCount := 5
    xRefSource := ([], [])
    yRefSource := ([], [])
    refLineColor := none
    xSource := ([], [], [], [])
    ySource := ([], [], [], []) }

/-- The state `__init__` produces for table `z = [0, 1]`, rows
`["a", "b"]`, `color_var = None`, `extents = [0, 1]` and capture
target `n`: the three colour attributes are never assigned. -/
def noColorState (n : ℤ) : OrbitState :=
  { z := [0, 1]
    barWidth := 1
    colorMonitor := .unset
    extents := .unset
    colorMap := .unset
    collecting := false
    refMeasX := [[], []]
    refMeasY := [[], []]
    refN := n
    refCount := n
    xRefSource := ([], [])
    yRefSource := ([], [])
    refLineColor := none
    xSource := ([], [], [], [])
    ySource := ([], [], [], []) }

/-- A mid-capture state: collecting, one cycle left, one sample already
accumulated for each of the two devices. -/
def c5State : OrbitState :=
  { baseState with collecting := true
                   refCount := 1
                   refMeasX := [[some 1], [some 2]]
                   refMeasY := [[some 1], [some 2]] }

/-! ## Claim theorems -/

theorem filterMap_id_cons_some {α : Type} (a : α) (l : List (Option α)) :
    (some a :: l).filterMap id = a :: l.filterMap id := rfl

theorem filterMap_id_cons_none {α : Type} (l : List (Option α)) :
    ((none : Option α) :: l).filterMap id = l.filterMap id := rfl

theorem filterMap_id_nil {α : Type} :
    (([] : List (Option α)).filterMap id) = [] := rfl

/-- State produced by the constructor in the C1 scenario: 3 devices at
z = [0, 1, 2], colour extents [0, 1] with map ["red", "green"], capture
target 2. -/
def c1s0 : OrbitState :=
  { z := [0, 1, 2]
    barWidth := 1
    colorMonitor := .set (some ())
    extents := .set [0, 1]
    colorMap := .set ["red", "green"]
    collecting := false
    refMeasX := [[], [], []]
    refMeasY := [[], [], []]
    refN := 2
    refCount := 2
    xRefSource := ([], [])
    yRefSource := ([], [])
    refLineColor := none
    xSource := ([], [], [], [])
    ySource := ([], [], [], []) }

/-- C1 scenario state after the first capture cycle with X values
[1, missing, 3]: countdown 1, one sample accumulated per device. -/
def c1s2 : OrbitState :=
  { c1s0 with collecting := true
              refCount := 1
              refMeasX := [[some 1], [none], [some 3]]
              refMeasY := [[some 0], [some 0], [some 0]]
              xSource := ([0, 1, 2], [some 1, none, some 3], ["a", "b", "c"],
                ["red", "red", "red"])
              ySource := ([0, 1, 2], [some 0, some 0, some 0], ["a", "b", "c"],
                ["red", "red", "red"]) }

/-- C1 scenario state after the second capture cycle with X values
[3, missing, 5]: the capture completed and published the curves. -/
def c1s3 : OrbitState :=
  { c1s2 with collecting := false
              refCount := 2
              refMeasX := [[], [], []]
              refMeasY := [[], [], []]
              refLineColor := some "red"
              xRefSource := ([0, 2], [2, 4])
              yRefSource := ([0, 1, 2], [0, 0, 0])
              xSource := ([0, 1, 2], [some 3, none, some 5], ["a", "b", "c"],
                ["red", "red", "red"])
              ySource := ([0, 1, 2], [some 0, some 0, some 0], ["a", "b", "c"],
                ["red", "red", "red"]) }

set_option maxHeartbeats 1000000 in
/-- C1: with 3 devices at z = [0, 1, 2] and capture target 2, feeding
X-axis values [1, missing, 3] then [3, missing, 5] yields at completion an
X reference curve with positions [0, 2] and values [2, 4]; the all-missing
device at z = 1 is dropped, means are arithmetic means over the
non-missing samples only, and surviving devices keep row order. Both
updates succeed and the capture ends with the countdown reset. -/
theorem C1_capture_scenario :
    OrbitDisplay.init [0, 1, 2] ["a", "b", "c"] (some ())
      (some ["red", "green"]) (some [0, 1]) (some 1) 2 = .ok c1s0 ∧
    OrbitDisplay.update (OrbitDisplay.collectReference c1s0)
      (.ok ⟨[some 1, none, some 3], [some 0, some 0, some 0], ["a", "b", "c"]⟩)
      (.ok (some 0)) = (c1s2, none) ∧
    OrbitDisplay.update c1s2
      (.ok ⟨[some 3, none, some 5], [some 0, some 0, some 0], ["a", "b", "c"]⟩)
      (.ok (some 0)) = (c1s3, none) ∧
    c1s3.xRefSource = ([0, 2], [2, 4]) ∧
    c1s3.collecting = false ∧ c1s3.refCount = 2 := by
  refine ⟨by decide, ?_, ?_, rfl, rfl, rfl⟩
  · norm_num [OrbitDisplay.update, OrbitDisplay.computeColors,
      OrbitDisplay.referenceStep, OrbitDisplay.collectReference,
      c1s0, c1s2, refCurve, presentMean, lineZ, appendSamples, binIdx, absQ,
      List.cons_ne_nil, Option.some_ne_none,
      filterMap_id_cons_some, filterMap_id_cons_none, filterMap_id_nil,
      List.sum_cons, List.sum_nil, List.length_cons, List.length_nil,
      List.getElem?_cons_zero, List.getElem?_cons_succ,
      List.replicate_succ, List.replicate_zero, List.zipWith_cons_cons]
  · norm_num [OrbitDisplay.update, OrbitDisplay.computeColors,
      OrbitDisplay.referenceStep,
      c1s0, c1s2, c1s3, refCurve, presentMean, lineZ, appendSamples, binIdx,
      absQ, List.cons_ne_nil, Option.some_ne_none,
      filterMap_id_cons_some, filterMap_id_cons_none, filterMap_id_nil,
      List.sum_cons, List.sum_nil, List.length_cons, List.length_nil,
      List.getElem?_cons_zero, List.getElem?_cons_succ,
      List.replicate_succ, List.replicate_zero, List.zipWith_cons_cons]

/-- C4 counterexample: `_reset_reference` does not clear the per-device
accumulators — a state with a nonempty X accumulator keeps it unchanged
through a reset, refuting "clears all per-device accumulator sequences". -/
theorem C4_reset_keeps_accumulators :
    (OrbitDisplay.resetReference
        { baseState with refMeasX := [[some 1], []] }).refMeasX = [[some 1], []] ∧
    ([[some (1 : ℚ)], []] : List (List (Option ℚ))) ≠ [[], []] :=
  ⟨rfl, by decide⟩

/-- C4 amended: `reset_capture` clears the two published reference-curve
sources and leaves everything else — the is-capturing flag, both
accumulator maps, countdown and target — unchanged. -/
theorem C4_reset_clears_only_published_curves (s : OrbitState) :
    (OrbitDisplay.resetReference s).xRefSource = ([], []) ∧
    (OrbitDisplay.resetReference s).yRefSource = ([], []) ∧
    (OrbitDisplay.resetReference s).collecting = s.collecting ∧
    (OrbitDisplay.resetReference s).refMeasX = s.refMeasX ∧
    (OrbitDisplay.resetReference s).refMeasY = s.refMeasY ∧
    (OrbitDisplay.resetReference s).refCount = s.refCount ∧
    (OrbitDisplay.resetReference s).refN = s.refN :=
  ⟨rfl, rfl, rfl, rfl, rfl, rfl, rfl⟩

/-- C5 counterexample: replacing the device table mid-capture leaves the
is-capturing flag true and the countdown where it was (1, not the target
5), and the capture then completes on the very next update, publishing a
reference curve — refuting "prevents that capture from completing, resets
the countdown to the target count, and sets the is-capturing flag to
false". -/
theorem C5_capture_survives_table_swap :
    (OrbitDisplay.updateTable c5State [0, 1] ["a", "b"]).collecting = true ∧
    (OrbitDisplay.updateTable c5State [0, 1] ["a", "b"]).refCount = 1 ∧
    c5State.refN = 5 ∧ (1 : ℤ) ≠ 5 ∧
    (OrbitDisplay.update (OrbitDisplay.updateTable c5State [0, 1] ["a", "b"])
        (.ok ⟨[some 4, some 6], [some 0, some 0], ["a", "b"]⟩)
        (.ok (some 0))).1.xRefSource = ([0, 1], [4, 6]) := by
  refine ⟨rfl, rfl, rfl, by decide, ?_⟩
  norm_num [OrbitDisplay.updateTable, OrbitDisplay.update,
    OrbitDisplay.computeColors, OrbitDisplay.referenceStep, c5State, baseState,
    refCurve, presentMean, lineZ, appendSamples, binIdx, absQ,
    List.cons_ne_nil, Option.some_ne_none,
      filterMap_id_cons_some, filterMap_id_cons_none, filterMap_id_nil,
      List.sum_cons, List.sum_nil, List.length_cons, List.length_nil,
    List.getElem?_cons_zero, List.getElem?_cons_succ,
    List.replicate_succ, List.replicate_zero, List.zipWith_cons_cons]

/-- C5 amended: `update_table` discards all in-flight accumulated samples
(re-initialising the accumulators from the new table's rows), clears the
published reference curves and installs the new `z`, but leaves the
is-capturing flag, countdown and target count unchanged, so an in-flight
capture continues and can still complete. -/
theorem C5_update_table_resets_samples_not_flags (s : OrbitState)
    (newZ : List ℚ) (newRows : List String) :
    (OrbitDisplay.updateTable s newZ newRows).refMeasX =
      List.replicate newRows.length [] ∧
    (OrbitDisplay.updateTable s newZ newRows).refMeasY =
      List.replicate newRows.length [] ∧
    (OrbitDisplay.updateTable s newZ newRows).xRefSource = ([], []) ∧
    (OrbitDisplay.updateTable s newZ newRows).yRefSource = ([], []) ∧
    (OrbitDisplay.updateTable s newZ newRows).z = newZ ∧
    (OrbitDisplay.updateTable s newZ newRows).collecting = s.collecting ∧
    (OrbitDisplay.updateTable s newZ newRows).refCount = s.refCount ∧
    (OrbitDisplay.updateTable s newZ newRows).refN = s.refN :=
  ⟨rfl, rfl, rfl, rfl, rfl, rfl, rfl, rfl⟩

/-- C6 counterexample: the constructor accepts a capture target of 0 and
of -3 without raising any error, refuting "rejected synchronously at
configuration time with an InvalidConfiguration error". -/
theorem C6_nonpositive_target_accepted :
    OrbitDisplay.init [0, 1] ["a", "b"] none none (some [0, 1]) (some 1) 0 =
      .ok (noColorState 0) ∧
    OrbitDisplay.init [0, 1] ["a", "b"] none none (some [0, 1]) (some 1) (-3) =
      .ok (noColorState (-3)) := by
  exact ⟨by decide, by decide⟩

/-- C8 (code bug): constructing with `color_var = None` (and valid
extents) succeeds but leaves `self._color_monitor` unassigned, so the very
first `update()` raises `AttributeError` instead of skipping binning and
applying the default colour; the state is left unchanged. -/
theorem C8_update_fails_without_color_config :
    OrbitDisplay.init [0, 1] ["a", "b"] none none (some [0, 1]) (some 1) 15 =
      .ok (noColorState 15) ∧
    OrbitDisplay.update (noColorState 15)
        (.ok ⟨[some 1, some 1], [some 1, some 1], ["a", "b"]⟩) (.ok (some 0)) =
      (noColorState 15, some .attributeError) := by
  exact ⟨by decide, by decide⟩

/-- C10: with `color_var = None` and a nonempty device table, the
constructor still unconditionally indexes the `extents` argument to build
the colour bars: `extents = None` fails with `TypeError`, a length-1
extents list fails with `IndexError`, and any extents list of length at
least 2 lets construction succeed. -/
theorem C10_init_requires_two_extents (z : List ℚ) (rows : List String)
    (cm : Option (List String)) (bw : Option ℚ) (n : ℤ) (hz : z ≠ []) :
    OrbitDisplay.init z rows none cm none bw n = .error .typeError ∧
    (∀ a : ℚ, OrbitDisplay.init z rows none cm (some [a]) bw n =
      .error .indexError) ∧
    (∀ (a b : ℚ) (rest : List ℚ), ∃ s : OrbitState,
      OrbitDisplay.init z rows none cm (some (a :: b :: rest)) bw n = .ok s) := by
  rcases z with _ | ⟨z0, zt⟩
  · exact absurd rfl hz
  · refine ⟨?_, ?_, ?_⟩
    · by_cases hb : (bw.getD 0 : ℚ) = 0 <;>
        simp [OrbitDisplay.init, OrbitDisplay.initColorAttrs,
          OrbitDisplay.computeBarWidth, OrbitDisplay.checkExtentsIndex, hb]
    · intro a
      by_cases hb : (bw.getD 0 : ℚ) = 0 <;>
        simp [OrbitDisplay.init, OrbitDisplay.initColorAttrs,
          OrbitDisplay.computeBarWidth, OrbitDisplay.checkExtentsIndex, hb]
    · intro a b rest
      by_cases hb : (bw.getD 0 : ℚ) = 0 <;>
        · simp only [OrbitDisplay.init, OrbitDisplay.initColorAttrs,
            OrbitDisplay.computeBarWidth, OrbitDisplay.checkExtentsIndex, hb,
            if_true, if_false, ite_true, ite_false]
          exact ⟨_, rfl⟩

/-- C10 witness: instantiating at the one-device table `z = [0]`. -/
theorem C10_init_requires_two_extents_witness :
    ([(0 : ℚ)] ≠ []) ∧
    OrbitDisplay.init [(0 : ℚ)] [] none none none none 1 = .error .typeError :=
  ⟨by decide, (C10_init_requires_two_extents [0] [] none none 1 (by decide)).1⟩

/-! ## Nearest-bin lemmas (C3) -/

theorem absQ_eq_abs (q : ℚ) : absQ q = |q| := by
  rcases lt_or_le q 0 with h | h
  · simp [absQ, h, abs_of_neg h]
  · simp [absQ, not_lt.mpr h, abs_of_nonneg h]

theorem binIdx_cons_cons (e r : ℚ) (t : List ℚ) (v : ℚ) :
    binIdx (e :: r :: t) v =
      if absQ (e - v) ≤ absQ ((r :: t).getD (binIdx (r :: t) v) 0 - v) then 0
      else binIdx (r :: t) v + 1 := rfl

theorem binIdx_lt_length (v : ℚ) : ∀ ext : List ℚ, ext ≠ [] → binIdx ext v < ext.length
  | [], h => absurd rfl h
  | [_], _ => by simp [binIdx]
  | e :: r :: t, _ => by
    rw [binIdx_cons_cons]
    split
    · simp
    · have ih := binIdx_lt_length v (r :: t) (by simp)
      simpa using Nat.succ_lt_succ ih

theorem binIdx_min (v : ℚ) : ∀ (ext : List ℚ) (j : ℕ), j < ext.length →
    absQ (ext.getD (binIdx ext v) 0 - v) ≤ absQ (ext.getD j 0 - v)
  | [], j, h => by simp at h
  | [e], j, h => by
    have hj : j = 0 := Nat.lt_one_iff.mp (by simpa using h)
    subst hj
    simp [binIdx]
  | e :: r :: t, j, h => by
    rw [binIdx_cons_cons]
    split
    case isTrue hle =>
      cases j with
      | zero => simp
      | succ k =>
        have hk : k < (r :: t).length := by simpa using h
        simp only [List.getD_cons_zero, List.getD_cons_succ]
        exact le_trans hle (binIdx_min v (r :: t) k hk)
    case isFalse hgt =>
      cases j with
      | zero =>
        simp only [List.getD_cons_zero, List.getD_cons_succ]
        exact le_of_lt (not_le.mp hgt)
      | succ k =>
        have hk : k < (r :: t).length := by simpa using h
        simp only [List.getD_cons_succ]
        exact binIdx_min v (r :: t) k hk

theorem binIdx_first (v : ℚ) : ∀ (ext : List ℚ) (j : ℕ), j < binIdx ext v →
    absQ (ext.getD (binIdx ext v) 0 - v) < absQ (ext.getD j 0 - v)
  | [], j, h => by simp [binIdx] at h
  | [_], j, h => by simp [binIdx] at h
  | e :: r :: t, j, h => by
    rw [binIdx_cons_cons] at h ⊢
    by_cases hc : absQ (e - v) ≤ absQ ((r :: t).getD (binIdx (r :: t) v) 0 - v)
    · rw [if_pos hc] at h
      exact absurd h (Nat.not_lt_zero j)
    · rw [if_neg hc] at h ⊢
      cases j with
      | zero =>
        simp only [List.getD_cons_zero, List.getD_cons_succ]
        exact not_le.mp hc
      | succ k =>
        have hk : k < binIdx (r :: t) v := Nat.succ_lt_succ_iff.mp h
        simp only [List.getD_cons_succ]
        exact binIdx_first v (r :: t) k hk

/-- C3: for every signal value, colour binning selects the index of the
extents entry with minimum absolute difference to the value, ties broken
by the lowest index (first occurrence in scan order): the chosen index is
in range, its distance is minimal, and every earlier index has a strictly
larger distance. In particular for extents [0, 1, 2] the value 1.6 gives
index 2, and the value 0.5 (equidistant from indices 0 and 1) gives the
lower index 0. -/
theorem C3_nearest_bin (ext : List ℚ) (v : ℚ) (h : ext ≠ []) :
    binIdx ext v < ext.length ∧
    (∀ j, j < ext.length →
      absQ (ext.getD (binIdx ext v) 0 - v) ≤ absQ (ext.getD j 0 - v)) ∧
    (∀ j, j < binIdx ext v →
      absQ (ext.getD (binIdx ext v) 0 - v) < absQ (ext.getD j 0 - v)) ∧
    binIdx [0, 1, 2] (8/5) = 2 ∧ binIdx [0, 1, 2] (1/2) = 0 :=
  ⟨binIdx_lt_length v ext h, fun j hj => binIdx_min v ext j hj,
   fun j hj => binIdx_first v ext j hj,
   by norm_num [binIdx, absQ], by norm_num [binIdx, absQ]⟩

/-- C3 witness: the scenario input extents [0, 1, 2] and value 1.6. -/
theorem C3_nearest_bin_witness :
    ([(0 : ℚ), 1, 2] ≠ []) ∧ binIdx [0, 1, 2] (8/5) < ([(0 : ℚ), 1, 2]).length :=
  ⟨by decide, (C3_nearest_bin [0, 1, 2] (8/5) (by decide)).1⟩

/-! ## All-missing-device lemmas (C2) -/

theorem presentMean_eq_none_of_all_none (l : List (Option ℚ))
    (h : ∀ s ∈ l, s = none) : presentMean l = none := by
  have hf : l.filterMap id = [] := by
    rw [List.filterMap_eq_nil_iff]
    intro a ha
    simpa using h a ha
  simp [presentMean, hf]

theorem refCurve_eraseIdx : ∀ (z : List ℚ) (meas : List (List (Option ℚ))) (i : ℕ),
    z.length = meas.length → i < meas.length →
    presentMean (meas.getD i []) = none →
    refCurve z meas = refCurve (z.eraseIdx i) (meas.eraseIdx i)
  | _, [], i, _, hi, _ => by simp at hi
  | [], _ :: _, _, hlen, _, _ => by simp at hlen
  | a :: zs, m :: ms, 0, _, _, hnone => by
    simp only [List.getD_cons_zero] at hnone
    simp [refCurve, hnone, lineZ, filterMap_id_cons_none]
  | a :: zs, m :: ms, i + 1, hlen, hi, hnone => by
    have hlen1 : zs.length = ms.length := by simpa using hlen
    have hi1 : i < ms.length := by simpa using hi
    have hnone1 : presentMean (ms.getD i []) = none := by simpa using hnone
    have ih := refCurve_eraseIdx zs ms i hlen1 hi1 hnone1
    have ih1 := congrArg Prod.fst ih
    have ih2 := congrArg Prod.snd ih
    simp only [refCurve] at ih1 ih2
    cases hm : presentMean m with
    | none =>
      simp [refCurve, hm, lineZ, filterMap_id_cons_none, List.eraseIdx_cons_succ,
        ih1, ih2]
    | some q =>
      simp [refCurve, hm, lineZ, filterMap_id_cons_some, List.eraseIdx_cons_succ,
        ih1, ih2]

/-- C2: a device all of whose collected samples for an axis are missing
contributes no entry to that axis's reference curve: its mean is `none`
(NaN) and the curve over the full table equals the curve computed with
that device's row (and its z position) deleted. -/
theorem C2_all_missing_device_dropped (z : List ℚ) (meas : List (List (Option ℚ)))
    (i : ℕ) (hlen : z.length = meas.length) (hi : i < meas.length)
    (hall : ∀ s ∈ meas.getD i [], s = none) :
    presentMean (meas.getD i []) = none ∧
    refCurve z meas = refCurve (z.eraseIdx i) (meas.eraseIdx i) :=
  have hm := presentMean_eq_none_of_all_none _ hall
  ⟨hm, refCurve_eraseIdx z meas i hlen hi hm⟩

/-- C2 witness: two devices, the first with one missing sample. -/
theorem C2_all_missing_device_dropped_witness :
    ([(0 : ℚ), 1].length = [[(none : Option ℚ)], [some 3]].length) ∧
    (0 < [[(none : Option ℚ)], [some 3]].length) ∧
    (∀ s ∈ [[(none : Option ℚ)], [some 3]].getD 0 [], s = none) ∧
    (presentMean ([[(none : Option ℚ)], [some 3]].getD 0 []) = none ∧
     refCurve [0, 1] [[none], [some 3]] =
       refCurve ([(0 : ℚ), 1].eraseIdx 0)
         ([[(none : Option ℚ)], [some 3]].eraseIdx 0)) :=
  ⟨by decide, by decide, by decide,
   C2_all_missing_device_dropped [0, 1] [[none], [some 3]] 0
     (by decide) (by decide) (by decide)⟩

/-- C6 amended: the constructor validates nothing about the capture
target: whether construction succeeds is independent of `reference_n`,
which is only stored into the target and countdown fields. -/
theorem C6_init_ignores_target (z : List ℚ) (rows : List String)
    (cv : Option Unit) (cm : Option (List String)) (ext : Option (List ℚ))
    (bw : Option ℚ) (n m : ℤ) :
    (OrbitDisplay.init z rows cv cm ext bw n).map
        (fun s => { s with refN := m, refCount := m }) =
      OrbitDisplay.init z rows cv cm ext bw m := by
  simp only [OrbitDisplay.init]
  cases hca : OrbitDisplay.initColorAttrs cv cm ext with
  | error e => simp [Except.map]
  | ok triple =>
    obtain ⟨cmon, extA, cmapA⟩ := triple
    cases hbw : OrbitDisplay.computeBarWidth z bw with
    | error e => simp [Except.map]
    | ok w =>
      cases z with
      | nil => simp [Except.map]
      | cons z0 zt =>
        cases hce : OrbitDisplay.checkExtentsIndex ext with
        | error e => simp [Except.map]
        | ok u => simp [Except.map]

/-- C7 counterexample: `update_colormap` with a 3-colour map and the
2-element extents [0, 6] succeeds (no error), although the claim requires
it to fail whenever the lengths differ; afterwards the stored extents are
`range(0, 6, 3) = [0, 3]`, of length 2, while the stored colour map has
length 3, so the claimed invariant does not hold either. -/
theorem C7_colormap_mismatch_accepted :
    (OrbitDisplay.updateColormap baseState ["r", "g", "b"] [0, 6]).2 = none ∧
    (OrbitDisplay.updateColormap baseState ["r", "g", "b"] [0, 6]).1.extents =
      Attr.set [0, 3] ∧
    (OrbitDisplay.updateColormap baseState ["r", "g", "b"] [0, 6]).1.colorMap =
      Attr.set ["r", "g", "b"] ∧
    ([(0 : ℚ), 3].length ≠ ["r", "g", "b"].length) := by
  exact ⟨by decide, by decide, by decide, by decide⟩

/-- C7 amended: `update_colormap` performs no length validation: for any
colour map and any extents list with at least two entries it succeeds,
replacing the stored extents by `range(extents[0], extents[1], len(cmap))`
— whose length is in general different from the colour map's — and
installing the new colour monitor. -/
theorem C7_update_colormap_no_validation (s : OrbitState) (cmap : List String)
    (a b : ℤ) (rest : List ℤ) (hc : cmap ≠ []) :
    OrbitDisplay.updateColormap s cmap (a :: b :: rest) =
      ({ s with colorMap := Attr.set cmap,
                extents :=
                  Attr.set ((pyRange a b cmap.length).map (fun i => (i : ℚ))),
                colorMonitor := Attr.set (some ()) }, none) := by
  have hlen : cmap.length ≠ 0 := by simpa [List.length_eq_zero] using hc
  simp [OrbitDisplay.updateColormap, hlen]

/-- C7 witness: a singleton colour map with extents [0, 1]. -/
theorem C7_update_colormap_no_validation_witness :
    (["r"] ≠ ([] : List String)) ∧
    OrbitDisplay.updateColormap baseState ["r"] [0, 1] =
      ({ baseState with colorMap := Attr.set ["r"],
                        extents :=
                          Attr.set ((pyRange 0 1 ["r"].length).map
                            (fun i => (i : ℚ))),
                        colorMonitor := Attr.set (some ()) }, none) :=
  ⟨by decide, C7_update_colormap_no_validation baseState ["r"] 0 1 [] (by decide)⟩

/-! ## Atomicity lemmas (C9) -/

theorem computeColors_some_color (s : OrbitState) (vals : PollVals)
    (cp : Except Err (Option ℚ)) (cs : List String) (co : Option String)
    (hmon : s.colorMonitor ≠ Attr.set none)
    (h : OrbitDisplay.computeColors s vals cp = .ok (cs, co)) :
    ∃ c, co = some c := by
  unfold OrbitDisplay.computeColors at h
  cases hcm : s.colorMonitor with
  | unset => rw [hcm] at h; simp at h
  | set om =>
    rw [hcm] at h
    cases om with
    | none => exact absurd hcm hmon
    | some u =>
      cases cp with
      | error e => simp at h
      | ok cv =>
        cases cv with
        | none => simp at h
        | some v =>
          cases hce : s.extents with
          | unset => rw [hce] at h; simp at h
          | set ext =>
            rw [hce] at h
            by_cases hne : ext = []
            · simp [hne] at h
            · cases hcl : s.colorMap with
              | unset => rw [hcl] at h; simp [hne] at h
              | set cmap =>
                rw [hcl] at h
                cases hg : cmap[binIdx ext v]? with
                | none => simp [hne, hg] at h
                | some c =>
                  simp [hne, hg] at h
                  exact ⟨c, h.2.symm⟩

theorem referenceStep_snd_none (s : OrbitState) (vals : PollVals) (c : String)
    (hx : vals.x.length = s.refMeasX.length)
    (hy : vals.y.length = s.refMeasY.length) :
    (OrbitDisplay.referenceStep s vals (some c)).2 = none := by
  simp only [OrbitDisplay.referenceStep]
  by_cases hcol : s.collecting
  · rw [if_pos hcol, if_pos (⟨hx, hy⟩ : _ ∧ _)]
    split <;> rfl
  · rw [if_neg hcol]

/-- C9: every failing `update()` leaves the state — published data
products, accumulators, countdown, is-capturing flag — untouched, given
the reachable-state and data-source invariants: the colour monitor was
never assigned `None` (the code only ever assigns real monitor objects),
and a successful poll returns exactly one entry per device-table row on
each axis, with at least one row. All fetches and the colour computation
can fail, but they precede the first mutation. -/
theorem C9_update_atomic_on_error (s : OrbitState) (mp : Except Err PollVals)
    (cp : Except Err (Option ℚ)) (e : Err)
    (hmon : s.colorMonitor ≠ Attr.set none)
    (hpoll : ∀ vals, mp = .ok vals →
      vals.x.length = s.refMeasX.length ∧ vals.y.length = s.refMeasY.length ∧
      vals.x ≠ [] ∧ vals.y ≠ [])
    (he : (OrbitDisplay.update s mp cp).2 = some e) :
    (OrbitDisplay.update s mp cp).1 = s := by
  cases mp with
  | error e0 => simp [OrbitDisplay.update]
  | ok vals =>
    obtain ⟨hx, hy, hxne, hyne⟩ := hpoll vals rfl
    simp only [OrbitDisplay.update] at he ⊢
    cases hcc : OrbitDisplay.computeColors s vals cp with
    | error e1 => simp
    | ok pr =>
      obtain ⟨cs, co⟩ := pr
      obtain ⟨c, rfl⟩ := computeColors_some_color s vals cp cs co hmon hcc
      have hrs := referenceStep_snd_none s vals c hx hy
      rw [hcc] at he
      simp only [] at he
      cases href : OrbitDisplay.referenceStep s vals (some c) with
      | mk s1 oe =>
        rw [href] at hrs
        simp only [] at hrs
        subst hrs
        rw [href] at he
        simp [hxne, hyne] at he

/-- C9 witness: a state whose colour monitor attribute was never assigned
and a successful poll; `update()` fails with `AttributeError` before any
mutation and the state is returned unchanged. -/
theorem C9_update_atomic_on_error_witness :
    ((noColorState 15).colorMonitor ≠ Attr.set none) ∧
    (OrbitDisplay.update (noColorState 15)
        (.ok ⟨[some 1, some 1], [some 1, some 1], ["a", "b"]⟩)
        (.ok (some 0))).2 = some .attributeError ∧
    (OrbitDisplay.update (noColorState 15)
        (.ok ⟨[some 1, some 1], [some 1, some 1], ["a", "b"]⟩)
        (.ok (some 0))).1 = noColorState 15 :=
  ⟨by decide, by decide,
   C9_update_atomic_on_error (noColorState 15)
     (.ok ⟨[some 1, some 1], [some 1, some 1], ["a", "b"]⟩) (.ok (some 0))
     .attributeError (by decide)
     (fun vals hv => by
       obtain rfl : vals = ⟨[some 1, some 1], [some 1, some 1], ["a", "b"]⟩ :=
         (Except.ok.inj hv).symm
       exact ⟨by decide, by decide, by decide, by decide⟩)
     (by decide)⟩
